import Mathlib

/-!
Verification of the `hvac` async adapter layer (`src/hvac/async_adapters.py`)
against its natural-language specification.

The Python module is shallowly embedded: each Python function that the claims
touch becomes a Lean definition translated from the source.  HTTP transport
(`aiohttp.ClientSession.request`) is external I/O and is modelled as a function
argument `transport : ComposedRequest → RawResponse`; the part of
`RawAsyncAdapter.request` that runs before the transport call is the pure
function `composeRequest` (source lines 272-304) and the part that runs after
it is `interpretResponse` (source lines 314-327).
-/

namespace Hvac

/-- JSON values, as produced by `response.json()`.  Python's `json` module
decodes objects to `dict`; we model an object as an association list.
(JSON `null` is not needed by any claim and is omitted.) -/
inductive Json where
  | str (s : String)
  | num (n : Int)
  | bool (b : Bool)
  | arr (xs : List Json)
  | obj (fields : List (String × Json))
deriving Repr

/-- Python `d[k]` / `d.get(k)` on a decoded JSON value: a `some` result is the
field's value; `none` is the `KeyError` (missing key) or `TypeError`
(subscripting a non-dict) path. -/
def Json.get : Json → String → Option Json
  | .obj fields, k => fields.lookup k
  | _, _ => none

/-- Python truthiness of an optional string (`if self.token:` etc.):
`None` and the empty string are falsy; a non-empty string is kept. -/
def truthyOpt : Option String → Option String
  | some s => if s.isEmpty then none else some s
  | none => none

/-- The adapter attributes set by `AsyncAdapter.__init__` that the request
path reads (source lines 64-77).  `self._kwargs` is always `{}` in this module
and is therefore not modelled.  The Python attribute `namespace` is a Lean
keyword, hence the trailing underscore. -/
structure AdapterState where
  base_uri : String
  token : Option String
  namespace_ : Option String
  allow_redirects : Bool
  ignore_exceptions : Bool
  strict_http : Bool
  request_header : Bool
deriving Repr, DecidableEq

/-- The keyword arguments of `request` that its body inspects: `wrap_ttl`
(popped at line 291) and `params` (read at line 300).  Any other entry is
passed through to the transport untouched and does not affect the claims. -/
structure RequestKwargs where
  params : Option (List (String × String))
  wrap_ttl : Option Nat
deriving Repr, DecidableEq

/-- What `await response.json()` does on a given response.
`aiohttp.ClientResponse.json()` first checks the content type: when it is not
a JSON type it raises `aiohttp.ContentTypeError`, which is a
`ClientResponseError`, **not** a `ValueError`; when the content type is JSON
but the body is not valid JSON it raises `json.JSONDecodeError`, which **is**
a `ValueError`; otherwise it returns the decoded value. -/
inductive JsonOutcome where
  | decoded (j : Json)
  | valueError
  | contentTypeError
deriving Repr

/-- An `aiohttp.ClientResponse` as the adapter observes it: its status, the
`Content-Type` header, what `await response.json()` does, and the result of
`await response.text()`. -/
structure RawResponse where
  status : Nat
  contentType : Option String
  jsonOutcome : JsonOutcome
  textBody : String
deriving Repr

/-- The value `await response.json()` returns when it succeeds; `none` when
it raises (either exception kind).  Code that catches every exception — the
`except Exception: pass` of the error branch — observes only this
projection. -/
def RawResponse.jsonBody (r : RawResponse) : Option Json :=
  match r.jsonOutcome with
  | .decoded j => some j
  | .valueError => none
  | .contentTypeError => none

/-- `aiohttp.ClientResponse.ok`: true exactly when the status is below 400. -/
def RawResponse.ok (r : RawResponse) : Bool :=
  r.status < 400

/-- Python `d[k] = v` on a string-valued dict, up to lookup semantics:
any previous binding of `k` is overwritten. -/
def dictSet (d : List (String × String)) (k v : String) : List (String × String) :=
  d.filter (fun p => p.1 != k) ++ [(k, v)]

/-- The data `RawAsyncAdapter.request` hands to `session.request`
(source lines 306-312): effective method, absolute url, headers, and the
remaining keyword arguments. -/
structure ComposedRequest where
  method : String
  url : String
  headers : List (String × String)
  kwargs : RequestKwargs
deriving Repr, DecidableEq

/-- Fixpoint of the loop `while "//" in url: url = url.replace("//", "/")`
(source lines 272-275): every run of separators collapses to a single one. -/
def collapseSlashes : List Char → List Char
  | '/' :: '/' :: rest => collapseSlashes ('/' :: rest)
  | c :: rest => c :: collapseSlashes rest
  | [] => []
termination_by l => l.length

/-- Python `s.lower()`: lower-case each character. -/
def pyLower (s : String) : String := ⟨s.toList.map Char.toLower⟩

/-- Python `s.strip("/")`: drop leading and trailing `'/'` characters. -/
def stripSlashesL (s : List Char) : List Char :=
  ((s.dropWhile (· == '/')).reverse.dropWhile (· == '/')).reverse

/-- Python `"/".join(parts)`: concatenate with a single `'/'` between
consecutive parts. -/
def joinSlash : List (List Char) → List Char
  | [] => []
  | [p] => p
  | p :: ps => p ++ '/' :: joinSlash ps

/-- `AsyncAdapter.urljoin` (source line 89):
`"/".join(map(lambda x: str(x).strip("/"), args))`. -/
def urljoin (args : List String) : String :=
  ⟨joinSlash (args.map (fun x => stripSlashesL x.toList))⟩

/-- `true` iff the string of characters contains the substring `"//"`. -/
def hasDoubledL : List Char → Bool
  | a :: b :: t => (a == '/' && b == '/') || hasDoubledL (b :: t)
  | _ => false

/-- Modelled from the spec: the error-kind taxonomy of §7.  The classifier
`hvac.utils.raise_for_error` lives in `hvac/utils.py`, which is not under
`src/`; only its call site (source lines 323-325) is. -/
inductive ErrorKind where
  | invalidRequest
  | unauthorized
  | forbidden
  | notFound
  | unsupportedMethod
  | preconditionFailed
  | rateLimitExceeded
  | internalServerError
  | vaultNotInitialized
  | serviceUnavailable
  | unexpectedStatus
deriving Repr, DecidableEq

/-- Modelled from the spec: the §7 status-to-kind table used by the missing
`hvac.utils.raise_for_error`. -/
def classifyStatus (status : Nat) : ErrorKind :=
  if status = 400 then .invalidRequest
  else if status = 401 then .unauthorized
  else if status = 403 then .forbidden
  else if status = 404 then .notFound
  else if status = 405 then .unsupportedMethod
  else if status = 412 then .preconditionFailed
  else if status = 429 then .rateLimitExceeded
  else if status = 500 then .internalServerError
  else if status = 501 then .vaultNotInitialized
  else if status = 503 then .serviceUnavailable
  else .unexpectedStatus

/-- The ErrorReport of spec §3: kind, method, URL, status, the optional
server-supplied structured `errors` value and the optional raw body text. -/
structure ErrorReport where
  kind : ErrorKind
  method : String
  url : String
  status : Nat
  errors : Option Json
  text : Option String
deriving Repr

/-- Modelled from the spec: `hvac.utils.raise_for_error(method, url, status,
text, errors=errors)` (not under `src/`) builds the report raised to the
caller; its kind comes from the §7 table and its fields from the arguments. -/
def raise_for_error (method url : String) (status : Nat) (text : Option String)
    (errors : Option Json) : ErrorReport :=
  { kind := classifyStatus status, method := method, url := url,
    status := status, errors := errors, text := text }

/-- The header-assembly steps of `RawAsyncAdapter.request`
(source lines 279-293), in source order: start from the caller's headers
(`{}` when `None`), then conditionally set `X-Vault-Request`,
`X-Vault-Token`, `X-Vault-Namespace` and `X-Vault-Wrap-TTL`.  Each `if x:`
guard is Python truthiness. -/
def assembleHeaders (st : AdapterState)
    (headers? : Option (List (String × String))) (wrap_ttl : Option Nat) :
    List (String × String) :=
  let headers0 := headers?.getD []
  let headers1 :=
    if st.request_header then dictSet headers0 "X-Vault-Request" "true" else headers0
  let headers2 :=
    match truthyOpt st.token with
    | some t => dictSet headers1 "X-Vault-Token" t
    | none => headers1
  let headers3 :=
    match truthyOpt st.namespace_ with
    | some n => dictSet headers2 "X-Vault-Namespace" n
    | none => headers2
  match wrap_ttl with
  | some n => if n ≠ 0 then dictSet headers3 "X-Vault-Wrap-TTL" (toString n) else headers3
  | none => headers3

/-- The pure request-composition phase of `RawAsyncAdapter.request`
(source lines 272-304): collapse doubled slashes in the relative path, join
it to the base URI, assemble the headers, pop `wrap_ttl` (so it is not also
sent as a generic keyword argument), and apply the strict-HTTP LIST shim.
`self._kwargs` is always `{}` in this module, so
`_kwargs = self._kwargs.copy(); _kwargs.update(kwargs)` leaves `kwargs`
unchanged. -/
def composeRequest (st : AdapterState) (method url0 : String)
    (headers? : Option (List (String × String))) (kwargs : RequestKwargs) :
    ComposedRequest :=
  let url1 : String := ⟨collapseSlashes url0.toList⟩
  let url := urljoin [st.base_uri, url1]
  let headers4 := assembleHeaders st headers? kwargs.wrap_ttl
  let kwargs1 : RequestKwargs := { kwargs with wrap_ttl := none }
  if st.strict_http && (pyLower method == "list") then
    let params := kwargs1.params.getD []
    let params1 := dictSet params "list" "true"
    { method := "get", url := url, headers := headers4,
      kwargs := { kwargs1 with params := some params1 } }
  else
    { method := method, url := url, headers := headers4, kwargs := kwargs1 }

/-- The response-interpretation phase of `RawAsyncAdapter.request`
(source lines 314-327): on a non-ok status with raising neither suppressed
per-call nor per-adapter, read the structured `errors` field when the
content type is JSON and the body decodes (a decode failure is swallowed by
`except Exception: pass`), fall back to the body text when `errors` is
`None`, and raise via `utils.raise_for_error`; otherwise return the
response. -/
def interpretResponse (st : AdapterState) (method url : String)
    (raise_exception : Bool) (response : RawResponse) :
    Except ErrorReport RawResponse :=
  if !response.ok && (raise_exception && !st.ignore_exceptions) then
    let errors : Option Json :=
      if response.contentType = some "application/json" then
        match response.jsonBody with
        | some j => j.get "errors"
        | none => none
      else none
    let text : Option String :=
      if errors.isNone then some response.textBody else none
    .error (raise_for_error method url response.status text errors)
  else
    .ok response

/-- `RawAsyncAdapter.request` (source lines 254-327), with the transport call
`session.request` abstracted as `transport`.  The method and url passed to
`raise_for_error` are the post-shim method and the joined url. -/
def RawAsyncAdapter.request (st : AdapterState) (method url : String)
    (headers? : Option (List (String × String))) (raise_exception : Bool)
    (kwargs : RequestKwargs) (transport : ComposedRequest → RawResponse) :
    Except ErrorReport RawResponse :=
  let c := composeRequest st method url headers? kwargs
  interpretResponse st c.method c.url raise_exception (transport c)

/-- What `JSONAsyncAdapter.request` returns: the decoded JSON dict on an
HTTP 200 with a decodable body, otherwise the response object. -/
inductive DecodedResult where
  | decoded (j : Json)
  | raw (r : RawResponse)
deriving Repr

/-- What can escape `JSONAsyncAdapter.request`: the ErrorReport raised by the
Raw layer, or the `aiohttp.ContentTypeError` that `await response.json()`
raises on a 200 response whose content type is not a JSON type —
`except ValueError` catches only `json.JSONDecodeError`, so the
ContentTypeError propagates to the caller. -/
inductive JSONRequestError where
  | report (e : ErrorReport)
  | contentTypeError
deriving Repr

/-- `JSONAsyncAdapter.request` (source lines 371-388): delegate to
`RawAsyncAdapter.request`; on status 200 try `await response.json()`.  The
`except ValueError: pass` clause swallows only a `json.JSONDecodeError`
(JSON content type, undecodable body) and falls through to returning the
response; an `aiohttp.ContentTypeError` (non-JSON content type) is not a
`ValueError` and propagates.  On any other status return the response. -/
def JSONAsyncAdapter.request (st : AdapterState) (method url : String)
    (headers? : Option (List (String × String))) (raise_exception : Bool)
    (kwargs : RequestKwargs) (transport : ComposedRequest → RawResponse) :
    Except JSONRequestError DecodedResult :=
  match RawAsyncAdapter.request st method url headers? raise_exception kwargs transport with
  | .error e => .error (.report e)
  | .ok response =>
    if response.status = 200 then
      match response.jsonOutcome with
      | .decoded j => .ok (.decoded j)
      | .valueError => .ok (.raw response)
      | .contentTypeError => .error .contentTypeError
    else .ok (.raw response)

/-- How a login call can fail: `http` is an ErrorReport raised by the request
pipeline; `missingTokenField` is the uncaught `KeyError`/`TypeError` from
`response_json["auth"]["client_token"]` when the field is absent, the kind
spec §7 names MissingTokenField; `decodeFailure` is the `json.JSONDecodeError`
from `response.json()` on an undecodable body (Raw variant) or the
`TypeError` from subscripting a non-dict response (Decoded variant);
`contentTypeError` is the `aiohttp.ContentTypeError` propagating when the
response's content type is not a JSON type; `nonStringToken` marks a present
`client_token` whose value is not a string, which the Python code would
store as-is but which falls outside this model's string-typed token state. -/
inductive LoginError where
  | http (e : ErrorReport)
  | missingTokenField
  | decodeFailure
  | contentTypeError
  | nonStringToken
deriving Repr

/-- Shared field extraction `response_json["auth"]["client_token"]`
(source lines 252 and 345). -/
def extractClientToken (j : Json) : Except LoginError String :=
  match j.get "auth" with
  | none => .error .missingTokenField
  | some a =>
    match a.get "client_token" with
    | none => .error .missingTokenField
    | some (.str t) => .ok t
    | some _ => .error .nonStringToken

/-- `RawAsyncAdapter.get_login_token` (source lines 243-252):
`response_json = await response.json(); return
response_json["auth"]["client_token"]`. -/
def RawAsyncAdapter.get_login_token (response : RawResponse) :
    Except LoginError String :=
  match response.jsonOutcome with
  | .decoded j => extractClientToken j
  | .valueError => .error .decodeFailure
  | .contentTypeError => .error .contentTypeError

/-- `JSONAsyncAdapter.get_login_token` (source lines 337-345):
`response["auth"]["client_token]"` on the already-decoded dict; subscripting
a raw response object would raise a `TypeError`. -/
def JSONAsyncAdapter.get_login_token (response : DecodedResult) :
    Except LoginError String :=
  match response with
  | .decoded j => extractClientToken j
  | .raw _ => .error .decodeFailure

/-- `AsyncAdapter.login` as inherited by `RawAsyncAdapter`
(source lines 183-205): POST via `request` (headers `None`,
`raise_exception` defaulting to `True`), then when `use_token` store the
extracted token on the adapter. -/
def RawAsyncAdapter.login (st : AdapterState) (url : String) (use_token : Bool)
    (kwargs : RequestKwargs) (transport : ComposedRequest → RawResponse) :
    Except LoginError (AdapterState × RawResponse) :=
  match RawAsyncAdapter.request st "post" url none true kwargs transport with
  | .error e => .error (.http e)
  | .ok response =>
    if use_token then
      match RawAsyncAdapter.get_login_token response with
      | .error e => .error e
      | .ok t => .ok ({ st with token := some t }, response)
    else
      .ok (st, response)

/-- `JSONAsyncAdapter.login` (source lines 347-369): same flow over the
decoded request result. -/
def JSONAsyncAdapter.login (st : AdapterState) (url : String) (use_token : Bool)
    (kwargs : RequestKwargs) (transport : ComposedRequest → RawResponse) :
    Except LoginError (AdapterState × DecodedResult) :=
  match JSONAsyncAdapter.request st "post" url none true kwargs transport with
  | .error (.report e) => .error (.http e)
  | .error .contentTypeError => .error .contentTypeError
  | .ok response =>
    if use_token then
      match JSONAsyncAdapter.get_login_token response with
      | .error e => .error e
      | .ok t => .ok ({ st with token := some t }, response)
    else
      .ok (st, response)

/-- The value the `X-Vault-Wrap-TTL` header ends up with, as a function of the
`wrap_ttl` keyword argument: set to `str(wrap_ttl)` exactly when the argument
is present and truthy. -/
def wrapHeaderValue : Option Nat → Option String
  | some n => if n ≠ 0 then some (toString n) else none
  | none => none

/-! Concrete fixtures used by witnesses and counterexamples. -/

/-- A plain adapter state: no token, no namespace, default flags. -/
def exState : AdapterState :=
  { base_uri := "http://localhost:8200", token := none, namespace_ := none,
    allow_redirects := true, ignore_exceptions := false,
    strict_http := false, request_header := true }

/-- An empty keyword-argument record. -/
def exKwargs : RequestKwargs := { params := none, wrap_ttl := none }

/-- A bodyless response with the given status and no content type, on which
`json()` raises `ContentTypeError`. -/
def exResp (status : Nat) : RawResponse :=
  { status := status, contentType := none,
    jsonOutcome := .contentTypeError, textBody := "err" }

/-- A login payload whose `auth.client_token` field is the given string. -/
def exPayload (t : String) : Json :=
  .obj [("auth", .obj [("client_token", .str t)])]

/-- A 200 JSON response carrying the given decoded body. -/
def exJsonResp (j : Json) : RawResponse :=
  { status := 200, contentType := some "application/json",
    jsonOutcome := .decoded j, textBody := "{}" }

/-- A 200 response whose content type is not a JSON type: `json()` raises
`aiohttp.ContentTypeError`, which `except ValueError` does not catch. -/
def exTextResp : RawResponse :=
  { status := 200, contentType := some "text/plain",
    jsonOutcome := .contentTypeError, textBody := "ok" }

/-- A 200 response with the JSON content type but an undecodable body:
`json()` raises `json.JSONDecodeError`, a `ValueError`. -/
def exBadJsonResp : RawResponse :=
  { status := 200, contentType := some "application/json",
    jsonOutcome := .valueError, textBody := "not json" }

/-- Adapter state with Python-falsy token and namespace values present. -/
def exFalsyState : AdapterState :=
  { base_uri := "http://localhost:8200", token := some "", namespace_ := some "",
    allow_redirects := true, ignore_exceptions := false,
    strict_http := false, request_header := false }

/-- Keyword arguments carrying a present but zero `wrap_ttl`. -/
def exZeroWrapKwargs : RequestKwargs := { params := none, wrap_ttl := some 0 }

/-- An adapter state with per-adapter exception suppression switched on. -/
def exIgnoreState : AdapterState :=
  { exState with ignore_exceptions := true }

/-- The strict-HTTP variant of the plain state. -/
def exStrictState : AdapterState :=
  { exState with strict_http := true }

/-- A 400 response with a structured JSON error body. -/
def exErrResp : RawResponse :=
  { status := 400, contentType := some "application/json",
    jsonOutcome := .decoded (.obj [("errors", .arr [.str "bad request"])]),
    textBody := "ignored" }

/-- A 200 response lacking the `auth.client_token` field. -/
def exNoTokenResp : RawResponse :=
  exJsonResp (.obj [("data", .str "x")])

/-! ### Dictionary lemmas -/

theorem lookup_append (l₁ l₂ : List (String × String)) (k : String) :
    (l₁ ++ l₂).lookup k = (l₁.lookup k).or (l₂.lookup k) := by
  induction l₁ with
  | nil => simp
  | cons p t ih =>
    rcases p with ⟨a, b⟩
    by_cases h : k = a
    · subst h; simp [List.lookup]
    · simp [List.lookup, beq_eq_false_iff_ne.2 h, ih]

theorem lookup_filter_out (d : List (String × String)) (k : String) :
    (d.filter (fun p => p.1 != k)).lookup k = none := by
  induction d with
  | nil => rfl
  | cons p t ih =>
    rcases p with ⟨a, b⟩
    by_cases h : a = k
    · rw [List.filter_cons_of_neg (by simp [h])]
      exact ih
    · rw [List.filter_cons_of_pos (by simp [h])]
      simpa [List.lookup, beq_eq_false_iff_ne.2 (Ne.symm h)] using ih

theorem lookup_filter_ne (d : List (String × String)) (k k' : String)
    (h : k' ≠ k) :
    (d.filter (fun p => p.1 != k)).lookup k' = d.lookup k' := by
  induction d with
  | nil => rfl
  | cons p t ih =>
    rcases p with ⟨a, b⟩
    by_cases ha : a = k
    · rw [List.filter_cons_of_neg (by simp [ha])]
      have hk : ¬k' = a := ha ▸ h
      simp [List.lookup, beq_eq_false_iff_ne.2 hk, ih]
    · rw [List.filter_cons_of_pos (by simp [ha])]
      by_cases hk : k' = a
      · subst hk; simp [List.lookup]
      · simp [List.lookup, beq_eq_false_iff_ne.2 hk, ih]

theorem lookup_dictSet_self (d : List (String × String)) (k v : String) :
    (dictSet d k v).lookup k = some v := by
  simp [dictSet, lookup_append, lookup_filter_out, List.lookup]

theorem lookup_dictSet_ne (d : List (String × String)) (k v k' : String)
    (h : k' ≠ k) :
    (dictSet d k v).lookup k' = d.lookup k' := by
  simp [dictSet, lookup_append, lookup_filter_ne d k k' h, List.lookup,
    beq_eq_false_iff_ne.2 h]

/-! ### Header-assembly lemmas -/

theorem composeRequest_headers (st : AdapterState) (m u : String)
    (headers? : Option (List (String × String))) (kwargs : RequestKwargs) :
    (composeRequest st m u headers? kwargs).headers =
      assembleHeaders st headers? kwargs.wrap_ttl := by
  simp only [composeRequest]
  split <;> rfl

theorem composeRequest_wrap_ttl (st : AdapterState) (m u : String)
    (headers? : Option (List (String × String))) (kwargs : RequestKwargs) :
    (composeRequest st m u headers? kwargs).kwargs.wrap_ttl = none := by
  simp only [composeRequest]
  split <;> rfl

theorem assembleHeaders_lookup_request (st : AdapterState)
    (headers? : Option (List (String × String))) (w : Option Nat)
    (h : (headers?.getD []).lookup "X-Vault-Request" = none) :
    (assembleHeaders st headers? w).lookup "X-Vault-Request" =
      if st.request_header then some "true" else none := by
  simp only [assembleHeaders]
  repeat' split
  all_goals simp_all [lookup_dictSet_self, lookup_dictSet_ne]
  all_goals exact h

theorem assembleHeaders_lookup_token (st : AdapterState)
    (headers? : Option (List (String × String))) (w : Option Nat)
    (h : (headers?.getD []).lookup "X-Vault-Token" = none) :
    (assembleHeaders st headers? w).lookup "X-Vault-Token" =
      truthyOpt st.token := by
  simp only [assembleHeaders]
  repeat' split
  all_goals simp_all [lookup_dictSet_self, lookup_dictSet_ne]
  all_goals exact h

theorem assembleHeaders_lookup_namespace (st : AdapterState)
    (headers? : Option (List (String × String))) (w : Option Nat)
    (h : (headers?.getD []).lookup "X-Vault-Namespace" = none) :
    (assembleHeaders st headers? w).lookup "X-Vault-Namespace" =
      truthyOpt st.namespace_ := by
  simp only [assembleHeaders]
  repeat' split
  all_goals simp_all [lookup_dictSet_self, lookup_dictSet_ne]
  all_goals exact h

theorem assembleHeaders_lookup_wrap (st : AdapterState)
    (headers? : Option (List (String × String))) (w : Option Nat)
    (h : (headers?.getD []).lookup "X-Vault-Wrap-TTL" = none) :
    (assembleHeaders st headers? w).lookup "X-Vault-Wrap-TTL" =
      wrapHeaderValue w := by
  simp only [assembleHeaders, wrapHeaderValue]
  repeat' split
  all_goals simp_all [lookup_dictSet_self, lookup_dictSet_ne]
  all_goals exact h

theorem assembleHeaders_lookup_other (st : AdapterState)
    (headers? : Option (List (String × String))) (w : Option Nat) (k : String)
    (hk1 : k ≠ "X-Vault-Request") (hk2 : k ≠ "X-Vault-Token")
    (hk3 : k ≠ "X-Vault-Namespace") (hk4 : k ≠ "X-Vault-Wrap-TTL") :
    (assembleHeaders st headers? w).lookup k = (headers?.getD []).lookup k := by
  simp only [assembleHeaders]
  repeat' split
  all_goals simp_all [lookup_dictSet_ne]

/-! ### Request-pipeline lemmas -/

theorem request_eq (st : AdapterState) (m u : String)
    (headers? : Option (List (String × String))) (re : Bool)
    (kwargs : RequestKwargs) (transport : ComposedRequest → RawResponse) :
    RawAsyncAdapter.request st m u headers? re kwargs transport =
      interpretResponse st (composeRequest st m u headers? kwargs).method
        (composeRequest st m u headers? kwargs).url re
        (transport (composeRequest st m u headers? kwargs)) := rfl

theorem interpretResponse_ok (st : AdapterState) (m u : String) (re : Bool)
    (r : RawResponse) (h : r.ok = true) :
    interpretResponse st m u re r = .ok r := by
  simp [interpretResponse, h]

theorem interpretResponse_suppressed (st : AdapterState) (m u : String)
    (re : Bool) (r : RawResponse)
    (h : re = false ∨ st.ignore_exceptions = true) :
    interpretResponse st m u re r = .ok r := by
  rcases h with h | h <;> simp [interpretResponse, h]

theorem interpretResponse_error (st : AdapterState) (m u : String)
    (r : RawResponse) (hig : st.ignore_exceptions = false)
    (h : 400 ≤ r.status) :
    ∃ e, interpretResponse st m u true r = .error e ∧
      e.status = r.status ∧ e.kind = classifyStatus r.status ∧
      e.method = m ∧ e.url = u ∧
      e.errors = (if r.contentType = some "application/json" then
          (match r.jsonBody with | some j => j.get "errors" | none => none)
        else none) ∧
      e.text = (if e.errors.isNone then some r.textBody else none) := by
  have hok : r.ok = false := by
    simp only [RawResponse.ok, decide_eq_false_iff_not, not_lt]
    omega
  refine ⟨raise_for_error m u r.status
      (if (if r.contentType = some "application/json" then
            (match r.jsonBody with | some j => j.get "errors" | none => none)
          else none).isNone then some r.textBody else none)
      (if r.contentType = some "application/json" then
          (match r.jsonBody with | some j => j.get "errors" | none => none)
        else none), ?_, rfl, rfl, rfl, rfl, rfl, rfl⟩
  simp [interpretResponse, hok, hig, raise_for_error]

theorem jsonBody_eq_decoded (r : RawResponse) (j : Json) :
    r.jsonBody = some j ↔ r.jsonOutcome = .decoded j := by
  cases h : r.jsonOutcome <;> simp [RawResponse.jsonBody, h]

theorem json_request_of_ok (st : AdapterState) (m u : String)
    (headers? : Option (List (String × String))) (re : Bool)
    (kwargs : RequestKwargs) (transport : ComposedRequest → RawResponse)
    (r : RawResponse)
    (h : RawAsyncAdapter.request st m u headers? re kwargs transport = .ok r) :
    JSONAsyncAdapter.request st m u headers? re kwargs transport =
      if r.status = 200 then
        (match r.jsonOutcome with
         | .decoded j => .ok (.decoded j)
         | .valueError => .ok (.raw r)
         | .contentTypeError => .error .contentTypeError)
      else .ok (.raw r) := by
  simp [JSONAsyncAdapter.request, h]

theorem assembleHeaders_lookup_token_set (st : AdapterState)
    (headers? : Option (List (String × String))) (w : Option Nat) (t : String)
    (ht : truthyOpt st.token = some t) :
    (assembleHeaders st headers? w).lookup "X-Vault-Token" = some t := by
  simp only [assembleHeaders, ht]
  repeat' split
  all_goals simp_all [lookup_dictSet_self, lookup_dictSet_ne]

theorem extractClientToken_ok (payload : Json) (t : String)
    (hauth : (payload.get "auth").bind (fun a => a.get "client_token") =
      some (.str t)) :
    extractClientToken payload = .ok t := by
  cases hA : payload.get "auth" with
  | none => rw [hA] at hauth; simp at hauth
  | some a =>
    rw [hA] at hauth
    simp only [Option.some_bind] at hauth
    simp [extractClientToken, hA, hauth]

theorem extractClientToken_missing (payload : Json)
    (hmiss : (payload.get "auth").bind (fun a => a.get "client_token") = none) :
    extractClientToken payload = .error .missingTokenField := by
  cases hA : payload.get "auth" with
  | none => simp [extractClientToken, hA]
  | some a =>
    rw [hA] at hmiss
    simp only [Option.some_bind] at hmiss
    simp [extractClientToken, hA, hmiss]

/-! ### urljoin lemmas -/

theorem head?_dropWhile_slash (l : List Char) :
    ∀ c, (l.dropWhile (· == '/')).head? = some c → c ≠ '/' := by
  induction l with
  | nil => intro c h; simp [List.dropWhile] at h
  | cons a t ih =>
    intro c h
    by_cases ha : a = '/'
    · subst ha
      rw [List.dropWhile_cons_of_pos (by simp)] at h
      exact ih c h
    · rw [List.dropWhile_cons_of_neg (by simp [ha])] at h
      simp only [List.head?_cons, Option.some.injEq] at h
      exact h ▸ ha

theorem getLast?_of_suffix {l w : List Char} (h : l <:+ w) (hne : l ≠ []) :
    l.getLast? = w.getLast? := by
  obtain ⟨t, rfl⟩ := h
  exact (List.getLast?_append_of_ne_nil t hne).symm

theorem stripSlashesL_head (s : List Char) :
    ∀ c, (stripSlashesL s).head? = some c → c ≠ '/' := by
  intro c h
  unfold stripSlashesL at h
  rw [List.head?_reverse] at h
  have hne : ((s.dropWhile (· == '/')).reverse.dropWhile (· == '/')) ≠ [] := by
    intro he
    rw [he] at h
    simp at h
  rw [getLast?_of_suffix (List.dropWhile_suffix _) hne, List.getLast?_reverse] at h
  exact head?_dropWhile_slash s c h

theorem stripSlashesL_getLast (s : List Char) :
    ∀ c, (stripSlashesL s).getLast? = some c → c ≠ '/' := by
  intro c h
  unfold stripSlashesL at h
  rw [List.getLast?_reverse] at h
  exact head?_dropWhile_slash _ c h

theorem dropWhile_slash_eq_self {l : List Char}
    (h : ∀ c, l.head? = some c → c ≠ '/') :
    l.dropWhile (· == '/') = l := by
  cases l with
  | nil => rfl
  | cons a t =>
    have ha : a ≠ '/' := h a rfl
    rw [List.dropWhile_cons_of_neg (by simp [ha])]

theorem stripSlashesL_eq_self {l : List Char}
    (h1 : ∀ c, l.head? = some c → c ≠ '/')
    (h2 : ∀ c, l.getLast? = some c → c ≠ '/') :
    stripSlashesL l = l := by
  unfold stripSlashesL
  rw [dropWhile_slash_eq_self h1]
  have h2' : ∀ c, l.reverse.head? = some c → c ≠ '/' := by
    intro c hc
    rw [List.head?_reverse] at hc
    exact h2 c hc
  rw [dropWhile_slash_eq_self h2', List.reverse_reverse]

theorem hasDoubledL_append {p q : List Char}
    (hp : hasDoubledL p = false) (hq : hasDoubledL q = false)
    (hjoin : ∀ a b, p.getLast? = some a → q.head? = some b → ¬(a = '/' ∧ b = '/')) :
    hasDoubledL (p ++ q) = false := by
  induction p with
  | nil => simpa using hq
  | cons a t ih =>
    cases t with
    | nil =>
      cases q with
      | nil => simp [hasDoubledL]
      | cons b u =>
        have hab := hjoin a b rfl rfl
        simp only [List.cons_append, List.nil_append]
        by_cases hbu : a = '/' ∧ b = '/'
        · exact absurd hbu hab
        · rw [not_and_or] at hbu
          rcases hbu with hx | hx <;> simp [hasDoubledL, hq, hx]
    | cons c t' =>
      have hp2 : (a == '/' && c == '/') = false ∧ hasDoubledL (c :: t') = false := by
        constructor
        · by_contra hx
          simp only [Bool.not_eq_false] at hx
          simp [hasDoubledL, hx] at hp
        · by_contra hx
          simp only [Bool.not_eq_false] at hx
          simp [hasDoubledL, hx] at hp
      have hjoin' : ∀ x y, (c :: t').getLast? = some x → q.head? = some y →
          ¬(x = '/' ∧ y = '/') := by
        intro x y hx hy
        exact hjoin x y (by rw [List.getLast?_cons_cons]; exact hx) hy
      have ihq := ih hp2.2 hjoin'
      simp only [List.cons_append] at ihq ⊢
      simp [hasDoubledL, hp2.1, ihq]

theorem joinSlash_good : ∀ (qs : List (List Char)),
    (∀ q ∈ qs, q ≠ [] ∧ hasDoubledL q = false ∧
      (∀ c, q.head? = some c → c ≠ '/') ∧ (∀ c, q.getLast? = some c → c ≠ '/')) →
    qs ≠ [] →
    (joinSlash qs ≠ [] ∧ hasDoubledL (joinSlash qs) = false ∧
      (∀ c, (joinSlash qs).head? = some c → c ≠ '/') ∧
      (∀ c, (joinSlash qs).getLast? = some c → c ≠ '/'))
  | [], _, hne => absurd rfl hne
  | [q], h, _ => by
    simpa [joinSlash] using h q (by simp)
  | q :: q' :: rest, h, _ => by
    have hq := h q (by simp)
    have ihJ := joinSlash_good (q' :: rest)
      (fun x hx => h x (List.mem_cons_of_mem q hx)) (by simp)
    set J := joinSlash (q' :: rest) with hJ
    have hjoin_eq : joinSlash (q :: q' :: rest) = q ++ '/' :: J := by
      simp [joinSlash, hJ]
    rw [hjoin_eq]
    obtain ⟨hJne, hJd, hJh, hJl⟩ := ihJ
    obtain ⟨hqne, hqd, hqh, hql⟩ := hq
    have hslashJ : hasDoubledL ('/' :: J) = false := by
      cases hJc : J with
      | nil => simp [hasDoubledL]
      | cons j J' =>
        have hj : j ≠ '/' := hJh j (by rw [hJc]; rfl)
        rw [hJc] at hJd
        simp [hasDoubledL, hj, hJd]
    refine ⟨by simp [hqne], ?_, ?_, ?_⟩
    · refine hasDoubledL_append hqd hslashJ ?_
      intro a b hga hhb
      rintro ⟨rfl, rfl⟩
      exact hql '/' hga rfl
    · intro c hc
      rw [List.head?_append_of_ne_nil q hqne] at hc
      exact hqh c hc
    · intro c hc
      rw [List.getLast?_append_cons] at hc
      cases hJc : J with
      | nil => exact absurd hJc hJne
      | cons j J' =>
        rw [hJc, List.getLast?_cons_cons] at hc
        exact hJl c (by rw [hJc]; exact hc)

/-! ### Claim theorems -/

/-- C1, counterexample: the claim says every status outside 200-299 raises
when raising is not suppressed, but a 304 response (outside 200-299, raising
not suppressed) is returned, not raised, because the code only raises when
`response.ok` is false, i.e. when the status is at least 400. -/
theorem c1_counterexample :
    RawAsyncAdapter.request exState "get" "p" none true exKwargs
        (fun _ => exResp 304) = .ok (exResp 304) ∧
    (exResp 304).status = 304 ∧ exState.ignore_exceptions = false :=
  ⟨rfl, rfl, rfl⟩

/-- C1, amended: for every response whose status is at least 400, when the
caller has not suppressed raising, `request` raises an error report whose
status equals the response status and, on the statuses of the §7 table,
whose kind matches that table; for every response with status below 400 (in
particular 200-299) no error is raised. -/
theorem c1_theorem (st : AdapterState) (m u : String)
    (headers? : Option (List (String × String))) (kwargs : RequestKwargs)
    (r : RawResponse) (hig : st.ignore_exceptions = false) :
    (400 ≤ r.status →
      ∃ e, RawAsyncAdapter.request st m u headers? true kwargs (fun _ => r) =
          .error e ∧ e.status = r.status ∧ e.kind = classifyStatus r.status) ∧
    (r.status < 400 →
      RawAsyncAdapter.request st m u headers? true kwargs (fun _ => r) = .ok r) ∧
    (classifyStatus 400 = .invalidRequest ∧ classifyStatus 401 = .unauthorized ∧
      classifyStatus 403 = .forbidden ∧ classifyStatus 404 = .notFound ∧
      classifyStatus 405 = .unsupportedMethod ∧
      classifyStatus 412 = .preconditionFailed ∧
      classifyStatus 429 = .rateLimitExceeded ∧
      classifyStatus 500 = .internalServerError ∧
      classifyStatus 503 = .serviceUnavailable) := by
  refine ⟨?_, ?_, by decide⟩
  · intro h400
    rw [request_eq]
    obtain ⟨e, he, h1, h2, -⟩ := interpretResponse_error st
      (composeRequest st m u headers? kwargs).method
      (composeRequest st m u headers? kwargs).url r hig h400
    exact ⟨e, he, h1, h2⟩
  · intro h400
    rw [request_eq]
    exact interpretResponse_ok _ _ _ _ _ (by simpa [RawResponse.ok])

/-- C1 witness: at a concrete 500 response the request raises with status 500
and kind InternalServerError; at a concrete 250 response it returns the
response. -/
theorem c1_witness :
    exState.ignore_exceptions = false ∧
    (∃ e, RawAsyncAdapter.request exState "get" "p" none true exKwargs
        (fun _ => exResp 500) = .error e ∧ e.status = (exResp 500).status ∧
        e.kind = classifyStatus (exResp 500).status) ∧
    RawAsyncAdapter.request exState "get" "p" none true exKwargs
        (fun _ => exResp 250) = .ok (exResp 250) :=
  ⟨rfl,
    (c1_theorem exState "get" "p" none exKwargs (exResp 500) rfl).1 (by decide),
    (c1_theorem exState "get" "p" none exKwargs (exResp 250) rfl).2.1 (by decide)⟩

/-- C6, code bug: with `raise_exception=false` a 500 response is returned by
both variants as the claim says, but a 200 response whose content type is
not a JSON type still raises out of the Decoded variant — the
`aiohttp.ContentTypeError` from `await response.json()` is not a
`ValueError`, so `except ValueError` does not catch it and the suppression
override never reaches it. -/
theorem c6_code :
    RawAsyncAdapter.request exState "get" "p" none false exKwargs
        (fun _ => exResp 500) = .ok (exResp 500) ∧
    JSONAsyncAdapter.request exState "get" "p" none false exKwargs
        (fun _ => exResp 500) = .ok (.raw (exResp 500)) ∧
    RawAsyncAdapter.request exState "get" "p" none false exKwargs
        (fun _ => exTextResp) = .ok exTextResp ∧
    JSONAsyncAdapter.request exState "get" "p" none false exKwargs
        (fun _ => exTextResp) = .error .contentTypeError :=
  ⟨rfl, rfl, rfl, rfl⟩

/-- C10, code bug: with `ignore_exceptions=True` no classified error is ever
raised — a 500 is returned by both variants even with `raise_exception`
true — but the Decoded variant does not always return the response or
decoded body: on a 200 response whose content type is not a JSON type the
decoder's `aiohttp.ContentTypeError` escapes despite the suppression
flags. -/
theorem c10_code :
    exIgnoreState.ignore_exceptions = true ∧
    RawAsyncAdapter.request exIgnoreState "get" "p" none true exKwargs
        (fun _ => exResp 500) = .ok (exResp 500) ∧
    JSONAsyncAdapter.request exIgnoreState "get" "p" none true exKwargs
        (fun _ => exResp 500) = .ok (.raw (exResp 500)) ∧
    JSONAsyncAdapter.request exIgnoreState "get" "p" none true exKwargs
        (fun _ => exTextResp) = .error .contentTypeError :=
  ⟨rfl, rfl, rfl, rfl⟩

/-- C2, code bug: a 200 response with a decodable JSON body is returned
decoded, and a 200 response with the JSON content type but an undecodable
body is returned raw (the `json.JSONDecodeError` is a `ValueError` and is
swallowed); but a 200 response whose content type is not a JSON type raises
`aiohttp.ContentTypeError` out of the Decoded request — `except ValueError`
does not catch it — instead of returning the raw response as the claim (and
spec §4.4/§9) require.  A non-200 non-raising status is returned raw. -/
theorem c2_code :
    JSONAsyncAdapter.request exState "get" "p" none true exKwargs
        (fun _ => exJsonResp (.obj [])) = .ok (.decoded (.obj [])) ∧
    JSONAsyncAdapter.request exState "get" "p" none true exKwargs
        (fun _ => exBadJsonResp) = .ok (.raw exBadJsonResp) ∧
    JSONAsyncAdapter.request exState "get" "p" none true exKwargs
        (fun _ => exTextResp) = .error .contentTypeError ∧
    JSONAsyncAdapter.request exState "get" "p" none true exKwargs
        (fun _ => exResp 204) = .ok (.raw (exResp 204)) :=
  ⟨rfl, rfl, rfl, rfl⟩

/-- C3: with strict-verb mode enabled and verb LIST, the composed transport
verb is GET and the sent query parameters are the caller's with
`list=true` merged in: looking up `list` yields `true` and every other key
looks up unchanged. -/
theorem c3_theorem (st : AdapterState) (method url : String)
    (headers? : Option (List (String × String))) (kwargs : RequestKwargs)
    (hs : st.strict_http = true) (hm : pyLower method = "list") :
    (composeRequest st method url headers? kwargs).method = "get" ∧
    (composeRequest st method url headers? kwargs).kwargs.params =
      some (dictSet (kwargs.params.getD []) "list" "true") ∧
    (((composeRequest st method url headers? kwargs).kwargs.params.getD
        []).lookup "list" = some "true") ∧
    (∀ k, k ≠ "list" →
      ((composeRequest st method url headers? kwargs).kwargs.params.getD
          []).lookup k = (kwargs.params.getD []).lookup k) := by
  have hcond : (st.strict_http && (pyLower method == "list")) = true := by
    simp [hs, hm]
  refine ⟨?_, ?_, ?_, ?_⟩
  · simp [composeRequest, hcond]
  · simp [composeRequest, hcond]
  · simp [composeRequest, hcond, lookup_dictSet_self]
  · intro k hk
    simp [composeRequest, hcond, lookup_dictSet_ne _ _ _ _ hk]

/-- C3 witness: at a concrete strict-mode LIST request with an existing
query parameter, the verb becomes `get`, `list=true` is injected and the
original parameter survives. -/
theorem c3_witness :
    exStrictState.strict_http = true ∧
    (pyLower "LIST" = "list") ∧
    (composeRequest exStrictState "LIST" "secret/foo" none
        { params := some [("k", "v")], wrap_ttl := none }).method = "get" ∧
    (((composeRequest exStrictState "LIST" "secret/foo" none
        { params := some [("k", "v")], wrap_ttl := none }).kwargs.params.getD
        []).lookup "list" = some "true") ∧
    (((composeRequest exStrictState "LIST" "secret/foo" none
        { params := some [("k", "v")], wrap_ttl := none }).kwargs.params.getD
        []).lookup "k" = some "v") := by
  have h := c3_theorem exStrictState "LIST" "secret/foo" none
    { params := some [("k", "v")], wrap_ttl := none } rfl (by decide)
  exact ⟨rfl, by decide, h.1, h.2.2.1, by
    rw [h.2.2.2 "k" (by decide)]; decide⟩

/-- C4, counterexample: a login whose payload carries
`{"auth": {"client_token": ""}}` stores the token `""`, but a request
composed afterwards does **not** carry an `X-Vault-Token` header, because
the header is only set when the stored token is Python-truthy. -/
theorem c4_counterexample :
    RawAsyncAdapter.login exState "v1/auth/x/login" true exKwargs
        (fun _ => exJsonResp (exPayload "")) =
      .ok ({ exState with token := some "" }, exJsonResp (exPayload "")) ∧
    (composeRequest { exState with token := some "" } "get" "p" none
        exKwargs).headers.lookup "X-Vault-Token" = none :=
  ⟨rfl, rfl⟩

/-- C4, amended: a login with `use_token` whose payload carries an
`auth.client_token` string stores exactly that string as the adapter token
(overwriting any previous one), identically for the Raw and the Decoded
variants, and — provided the stored token is non-empty — every request
composed afterwards carries `X-Vault-Token` with that value. -/
theorem c4_theorem (st : AdapterState) (url : String) (kwargs : RequestKwargs)
    (payload : Json) (t : String) (r : RawResponse)
    (hauth : (payload.get "auth").bind (fun a => a.get "client_token") =
      some (.str t))
    (h200 : r.status = 200) (hbody : r.jsonBody = some payload)
    (m u : String) (headers? : Option (List (String × String)))
    (kwargs2 : RequestKwargs) :
    RawAsyncAdapter.login st url true kwargs (fun _ => r) =
      .ok ({ st with token := some t }, r) ∧
    JSONAsyncAdapter.login st url true kwargs (fun _ => r) =
      .ok ({ st with token := some t }, .decoded payload) ∧
    (t ≠ "" →
      (composeRequest { st with token := some t } m u headers?
          kwargs2).headers.lookup "X-Vault-Token" = some t) := by
  have hex := extractClientToken_ok payload t hauth
  have hout : r.jsonOutcome = .decoded payload :=
    (jsonBody_eq_decoded r payload).mp hbody
  have hraw : RawAsyncAdapter.request st "post" url none true kwargs
      (fun _ => r) = .ok r := by
    rw [request_eq]
    exact interpretResponse_ok _ _ _ _ _ (by simp [RawResponse.ok, h200])
  refine ⟨?_, ?_, ?_⟩
  · simp [RawAsyncAdapter.login, hraw, RawAsyncAdapter.get_login_token,
      hout, hex]
  · have hjson := json_request_of_ok st "post" url none true kwargs
      (fun _ => r) r hraw
    rw [if_pos h200, hout] at hjson
    simp [JSONAsyncAdapter.login, hjson, JSONAsyncAdapter.get_login_token, hex]
  · intro ht
    rw [composeRequest_headers]
    exact assembleHeaders_lookup_token_set _ _ _ t
      (by simp [truthyOpt, String.isEmpty_iff, ht])

/-- C4 witness: logging in against `{"auth": {"client_token": "t1"}}` stores
`"t1"` (both variants) and a request composed afterwards carries
`X-Vault-Token: t1`. -/
theorem c4_witness :
    ((exPayload "t1").get "auth").bind (fun a => a.get "client_token") =
        some (.str "t1") ∧
    (exJsonResp (exPayload "t1")).status = 200 ∧
    RawAsyncAdapter.login exState "v1/auth/x/login" true exKwargs
        (fun _ => exJsonResp (exPayload "t1")) =
      .ok ({ exState with token := some "t1" }, exJsonResp (exPayload "t1")) ∧
    JSONAsyncAdapter.login exState "v1/auth/x/login" true exKwargs
        (fun _ => exJsonResp (exPayload "t1")) =
      .ok ({ exState with token := some "t1" }, .decoded (exPayload "t1")) ∧
    (composeRequest { exState with token := some "t1" } "get" "secret/foo"
        none exKwargs).headers.lookup "X-Vault-Token" = some "t1" := by
  have h := c4_theorem exState "v1/auth/x/login" exKwargs (exPayload "t1")
    "t1" (exJsonResp (exPayload "t1")) rfl rfl rfl "get" "secret/foo" none
    exKwargs
  exact ⟨rfl, rfl, h.1, h.2.1, h.2.2 (by decide)⟩

/-- C5, counterexample: with a present-but-empty token, a present-but-empty
namespace and a present-but-zero wrap-TTL, no corresponding header is set
(the claim predicts all three), because each guard tests Python truthiness
rather than presence. -/
theorem c5_counterexample :
    (composeRequest exFalsyState "get" "p" none exZeroWrapKwargs).headers =
      [] ∧
    exFalsyState.token = some "" ∧ exFalsyState.namespace_ = some "" ∧
    exZeroWrapKwargs.wrap_ttl = some 0 ∧
    (composeRequest exFalsyState "get" "p" none
      exZeroWrapKwargs).kwargs.wrap_ttl = none :=
  ⟨rfl, rfl, rfl, rfl, rfl⟩

/-- C5, amended: the final header set is the caller's extra headers (which
are assumed not to use the four reserved names), plus `X-Vault-Request:
true` exactly when the anti-SSRF flag is enabled, plus `X-Vault-Token`
exactly when a truthy (non-empty) token is present, plus `X-Vault-Namespace`
exactly when a truthy namespace is configured, plus `X-Vault-Wrap-TTL`
(stringified) exactly when a truthy (non-zero) wrap-TTL option is present;
and `wrap_ttl` is always removed from the generic options. -/
theorem c5_theorem (st : AdapterState) (m u : String)
    (extra : List (String × String)) (kwargs : RequestKwargs)
    (h1 : extra.lookup "X-Vault-Request" = none)
    (h2 : extra.lookup "X-Vault-Token" = none)
    (h3 : extra.lookup "X-Vault-Namespace" = none)
    (h4 : extra.lookup "X-Vault-Wrap-TTL" = none) :
    ((composeRequest st m u (some extra) kwargs).headers.lookup
        "X-Vault-Request" =
      if st.request_header then some "true" else none) ∧
    ((composeRequest st m u (some extra) kwargs).headers.lookup
        "X-Vault-Token" = truthyOpt st.token) ∧
    ((composeRequest st m u (some extra) kwargs).headers.lookup
        "X-Vault-Namespace" = truthyOpt st.namespace_) ∧
    ((composeRequest st m u (some extra) kwargs).headers.lookup
        "X-Vault-Wrap-TTL" = wrapHeaderValue kwargs.wrap_ttl) ∧
    (∀ k, k ≠ "X-Vault-Request" → k ≠ "X-Vault-Token" →
      k ≠ "X-Vault-Namespace" → k ≠ "X-Vault-Wrap-TTL" →
      (composeRequest st m u (some extra) kwargs).headers.lookup k =
        extra.lookup k) ∧
    (composeRequest st m u (some extra) kwargs).kwargs.wrap_ttl = none := by
  refine ⟨?_, ?_, ?_, ?_, ?_, composeRequest_wrap_ttl st m u (some extra) kwargs⟩
  · rw [composeRequest_headers]
    exact assembleHeaders_lookup_request st (some extra) kwargs.wrap_ttl
      (by simpa using h1)
  · rw [composeRequest_headers]
    exact assembleHeaders_lookup_token st (some extra) kwargs.wrap_ttl
      (by simpa using h2)
  · rw [composeRequest_headers]
    exact assembleHeaders_lookup_namespace st (some extra) kwargs.wrap_ttl
      (by simpa using h3)
  · rw [composeRequest_headers]
    exact assembleHeaders_lookup_wrap st (some extra) kwargs.wrap_ttl
      (by simpa using h4)
  · intro k hk1 hk2 hk3 hk4
    rw [composeRequest_headers]
    simpa using
      assembleHeaders_lookup_other st (some extra) kwargs.wrap_ttl k
        hk1 hk2 hk3 hk4

/-- C5 witness: at a concrete state with token `tk`, namespace `ns`,
wrap-TTL 60 and one custom caller header, all four reserved headers come
out as specified and the custom header survives. -/
theorem c5_witness :
    (([("X-Custom", "1")] : List (String × String)).lookup
        "X-Vault-Request" = none) ∧
    ((composeRequest
        { base_uri := "http://localhost:8200", token := some "tk",
          namespace_ := some "ns", allow_redirects := true,
          ignore_exceptions := false, strict_http := false,
          request_header := true }
        "get" "p" (some [("X-Custom", "1")])
        { params := none, wrap_ttl := some 60 }).headers.lookup
        "X-Vault-Request" = some "true") ∧
    ((composeRequest
        { base_uri := "http://localhost:8200", token := some "tk",
          namespace_ := some "ns", allow_redirects := true,
          ignore_exceptions := false, strict_http := false,
          request_header := true }
        "get" "p" (some [("X-Custom", "1")])
        { params := none, wrap_ttl := some 60 }).headers.lookup
        "X-Vault-Token" = some "tk") ∧
    ((composeRequest
        { base_uri := "http://localhost:8200", token := some "tk",
          namespace_ := some "ns", allow_redirects := true,
          ignore_exceptions := false, strict_http := false,
          request_header := true }
        "get" "p" (some [("X-Custom", "1")])
        { params := none, wrap_ttl := some 60 }).headers.lookup
        "X-Vault-Namespace" = some "ns") ∧
    ((composeRequest
        { base_uri := "http://localhost:8200", token := some "tk",
          namespace_ := some "ns", allow_redirects := true,
          ignore_exceptions := false, strict_http := false,
          request_header := true }
        "get" "p" (some [("X-Custom", "1")])
        { params := none, wrap_ttl := some 60 }).headers.lookup
        "X-Vault-Wrap-TTL" = some "60") ∧
    ((composeRequest
        { base_uri := "http://localhost:8200", token := some "tk",
          namespace_ := some "ns", allow_redirects := true,
          ignore_exceptions := false, strict_http := false,
          request_header := true }
        "get" "p" (some [("X-Custom", "1")])
        { params := none, wrap_ttl := some 60 }).headers.lookup
        "X-Custom" = some "1") := by
  have h := c5_theorem
    { base_uri := "http://localhost:8200", token := some "tk",
      namespace_ := some "ns", allow_redirects := true,
      ignore_exceptions := false, strict_http := false,
      request_header := true }
    "get" "p" [("X-Custom", "1")] { params := none, wrap_ttl := some 60 }
    (by decide) (by decide) (by decide) (by decide)
  refine ⟨by decide, ?_, ?_, ?_, ?_, ?_⟩
  · rw [h.1]; rfl
  · rw [h.2.1]; rfl
  · rw [h.2.2.1]; rfl
  · rw [h.2.2.2.1]; rfl
  · rw [h.2.2.2.2.1 "X-Custom" (by decide) (by decide) (by decide) (by decide)]
    rfl

/-- C7, counterexample: an empty fragment between two parts joins to
`"a//b"`, which contains a doubled separator, and a leading empty fragment
joins to `"/a"`, which re-joins to `"a"`, so `urljoin` is neither
doubled-separator-free nor idempotent on all inputs. -/
theorem c7_counterexample :
    urljoin ["a", "", "b"] = "a//b" ∧
    hasDoubledL (urljoin ["a", "", "b"]).toList = true ∧
    urljoin ["", "a"] = "/a" ∧
    urljoin [urljoin ["", "a"]] = "a" ∧
    urljoin [urljoin ["", "a"]] ≠ urljoin ["", "a"] :=
  ⟨by decide, by decide, by decide, by decide, by decide⟩

/-- C7, amended: for every sequence of fragments each of which still has
content after stripping its leading/trailing separators and contains no
internal doubled separator, `urljoin` produces a string with no doubled
separator and is idempotent under re-joining its own output. -/
theorem c7_theorem (parts : List String)
    (h : ∀ p ∈ parts, stripSlashesL p.toList ≠ [] ∧
      hasDoubledL (stripSlashesL p.toList) = false) :
    hasDoubledL (urljoin parts).toList = false ∧
    urljoin [urljoin parts] = urljoin parts := by
  cases parts with
  | nil => exact ⟨rfl, rfl⟩
  | cons p0 rest =>
    have hqs : ∀ q ∈ (p0 :: rest).map (fun x => stripSlashesL x.toList),
        q ≠ [] ∧ hasDoubledL q = false ∧
        (∀ c, q.head? = some c → c ≠ '/') ∧
        (∀ c, q.getLast? = some c → c ≠ '/') := by
      intro q hq
      rw [List.mem_map] at hq
      obtain ⟨p, hp1, rfl⟩ := hq
      exact ⟨(h p hp1).1, (h p hp1).2, stripSlashesL_head _,
        stripSlashesL_getLast _⟩
    have hg := joinSlash_good _ hqs (by simp)
    have htl : (urljoin (p0 :: rest)).toList =
        joinSlash ((p0 :: rest).map (fun x => stripSlashesL x.toList)) := rfl
    refine ⟨by rw [htl]; exact hg.2.1, ?_⟩
    have hone : urljoin [urljoin (p0 :: rest)] =
        ⟨stripSlashesL (urljoin (p0 :: rest)).toList⟩ := rfl
    rw [hone, htl, stripSlashesL_eq_self hg.2.2.1 hg.2.2.2]
    rfl

/-- C7 witness: the fragments `"/a/"` and `"b/c"` satisfy the amended
hypothesis, and their join `"a/b/c"` has no doubled separator and is a
fixed point of re-joining. -/
theorem c7_witness :
    (∀ p ∈ ["/a/", "b/c"], stripSlashesL p.toList ≠ [] ∧
      hasDoubledL (stripSlashesL p.toList) = false) ∧
    (hasDoubledL (urljoin ["/a/", "b/c"]).toList = false ∧
      urljoin [urljoin ["/a/", "b/c"]] = urljoin ["/a/", "b/c"]) :=
  ⟨by decide, c7_theorem ["/a/", "b/c"] (by decide)⟩

/-- C8: a login whose response is HTTP 200 but whose decoded payload lacks
`auth.client_token` fails with the MissingTokenField kind — in the source,
the uncaught `KeyError` from `response_json["auth"]["client_token"]` — for
both adapter variants, and that failure is distinct from the HTTP-level
error a 401 login produces (an Unauthorized report raised earlier in the
pipeline). -/
theorem c8_theorem (st : AdapterState) (url : String) (kwargs : RequestKwargs)
    (payload : Json) (r r401 : RawResponse)
    (h200 : r.status = 200) (hbody : r.jsonBody = some payload)
    (hmiss : (payload.get "auth").bind (fun a => a.get "client_token") = none)
    (h401 : r401.status = 401) (hig : st.ignore_exceptions = false) :
    RawAsyncAdapter.login st url true kwargs (fun _ => r) =
      .error .missingTokenField ∧
    JSONAsyncAdapter.login st url true kwargs (fun _ => r) =
      .error .missingTokenField ∧
    (∃ e, RawAsyncAdapter.login st url true kwargs (fun _ => r401) =
        .error (.http e) ∧ e.kind = .unauthorized ∧ e.status = 401) ∧
    (∀ e, LoginError.missingTokenField ≠ LoginError.http e) := by
  have hex := extractClientToken_missing payload hmiss
  have hout : r.jsonOutcome = .decoded payload :=
    (jsonBody_eq_decoded r payload).mp hbody
  have hraw : RawAsyncAdapter.request st "post" url none true kwargs
      (fun _ => r) = .ok r := by
    rw [request_eq]
    exact interpretResponse_ok _ _ _ _ _ (by simp [RawResponse.ok, h200])
  refine ⟨?_, ?_, ?_, by intro e hcontra; cases hcontra⟩
  · simp [RawAsyncAdapter.login, hraw, RawAsyncAdapter.get_login_token,
      hout, hex]
  · have hjson := json_request_of_ok st "post" url none true kwargs
      (fun _ => r) r hraw
    rw [if_pos h200, hout] at hjson
    simp [JSONAsyncAdapter.login, hjson, JSONAsyncAdapter.get_login_token, hex]
  · obtain ⟨e, he, hst, hk, -, -, -, -⟩ := interpretResponse_error st
      (composeRequest st "post" url none kwargs).method
      (composeRequest st "post" url none kwargs).url r401 hig (by omega)
    have hreq : RawAsyncAdapter.request st "post" url none true kwargs
        (fun _ => r401) = .error e := by
      rw [request_eq]; exact he
    refine ⟨e, ?_, ?_, by rw [hst, h401]⟩
    · simp [RawAsyncAdapter.login, hreq]
    · rw [hk, h401]; decide

/-- C8 witness: at a concrete 200 payload `{"data": "x"}` the login fails
with MissingTokenField for both variants, while a concrete 401 login fails
with an Unauthorized HTTP report. -/
theorem c8_witness :
    (((Json.obj [("data", .str "x")]).get "auth").bind
        (fun a => a.get "client_token") = none) ∧
    RawAsyncAdapter.login exState "v1/auth/x/login" true exKwargs
        (fun _ => exNoTokenResp) = .error .missingTokenField ∧
    JSONAsyncAdapter.login exState "v1/auth/x/login" true exKwargs
        (fun _ => exNoTokenResp) = .error .missingTokenField ∧
    (∃ e, RawAsyncAdapter.login exState "v1/auth/x/login" true exKwargs
        (fun _ => exResp 401) = .error (.http e) ∧
      e.kind = .unauthorized ∧ e.status = 401) := by
  have h := c8_theorem exState "v1/auth/x/login" exKwargs
    (.obj [("data", .str "x")]) exNoTokenResp (exResp 401) rfl rfl rfl rfl rfl
  exact ⟨rfl, h.1, h.2.1, h.2.2.1⟩

/-- C9: whenever a failing response triggers raising, the report carries the
server-supplied structured `errors` value exactly when the content type is
`application/json` and the body decodes with an `errors` field; in every
other case it carries the raw body text instead, and a decode failure never
prevents the report from being raised with the classified kind and the
response status. -/
theorem c9_theorem (st : AdapterState) (m u : String)
    (headers? : Option (List (String × String))) (kwargs : RequestKwargs)
    (r : RawResponse) (hig : st.ignore_exceptions = false)
    (hfail : 400 ≤ r.status) :
    ∃ e, RawAsyncAdapter.request st m u headers? true kwargs (fun _ => r) =
        .error e ∧
      e.kind = classifyStatus r.status ∧ e.status = r.status ∧
      ((∃ es, e.errors = some es) ↔
        (r.contentType = some "application/json" ∧
          ∃ j es, r.jsonBody = some j ∧ j.get "errors" = some es)) ∧
      (e.errors = none → e.text = some r.textBody) ∧
      (∀ es, e.errors = some es → e.text = none) := by
  rw [request_eq]
  obtain ⟨e, he, hst, hk, -, -, herr, htext⟩ := interpretResponse_error st
    (composeRequest st m u headers? kwargs).method
    (composeRequest st m u headers? kwargs).url r hig hfail
  refine ⟨e, he, hk, hst, ?_, ?_, ?_⟩
  · rw [herr]
    constructor
    · intro hes
      obtain ⟨es, hes⟩ := hes
      by_cases hct : r.contentType = some "application/json"
      · rw [if_pos hct] at hes
        cases hj : r.jsonBody with
        | none => rw [hj] at hes; exact absurd hes (by simp)
        | some j => rw [hj] at hes; exact ⟨hct, j, es, rfl, hes⟩
      · rw [if_neg hct] at hes
        exact absurd hes (by simp)
    · rintro ⟨hct, j, es, hj, hes⟩
      rw [if_pos hct, hj]
      exact ⟨es, hes⟩
  · intro hnone
    rw [htext, hnone]
    rfl
  · intro es hes
    rw [htext, hes]
    rfl

/-- C9 witness: a concrete 400 JSON response carrying an `errors` list is
raised with kind InvalidRequest, status 400, the structured errors present
and the raw text absent. -/
theorem c9_witness :
    exState.ignore_exceptions = false ∧ 400 ≤ exErrResp.status ∧
    (∃ e, RawAsyncAdapter.request exState "get" "p" none true exKwargs
        (fun _ => exErrResp) = .error e ∧
      e.kind = classifyStatus exErrResp.status ∧ e.status = exErrResp.status ∧
      ((∃ es, e.errors = some es) ↔
        (exErrResp.contentType = some "application/json" ∧
          ∃ j es, exErrResp.jsonBody = some j ∧ j.get "errors" = some es)) ∧
      (e.errors = none → e.text = some exErrResp.textBody) ∧
      (∀ es, e.errors = some es → e.text = none)) :=
  ⟨rfl, by decide,
    c9_theorem exState "get" "p" none exKwargs exErrResp rfl (by decide)⟩

end Hvac
